import Mathlib

/-!
Verification development for the Bedrock client utilities of the
connect-contact-flow-comparison action: the token rate limiter, the
retrying invoker and the metrics collector (src/bedrock_utils.py).
Python floats that carry times and token counts are modelled as rationals;
sleeping is modelled by returning the slept duration, and the clock read
taken right after a sleep is modelled as the pre-sleep time plus the slept
duration (an exact sleep with no computation time in between).
-/

/-- State of `TokenRateLimiter` (bedrock_utils.py lines 30-35): the
configured capacity, the derived per-second rate, the bookkeeping fields.
Times are seconds since an arbitrary epoch. -/
structure TokenRateLimiter where
  tokens_per_minute : ℚ
  tokens_per_second : ℚ
  last_request_time : ℚ
  used_tokens : ℚ
  window_start_time : ℚ
deriving DecidableEq

/-- Constructor `TokenRateLimiter.__init__`: `now` is the value of
`time.time()` at construction. -/
def TokenRateLimiter.init (tokens_per_minute : ℚ) (now : ℚ) : TokenRateLimiter :=
  { tokens_per_minute := tokens_per_minute
    tokens_per_second := tokens_per_minute / 60
    last_request_time := 0
    used_tokens := 0
    window_start_time := now }

/-- Lines 41-43: lazily reset the window if a minute has passed. -/
def TokenRateLimiter.lazyWindowReset (s : TokenRateLimiter) (now : ℚ) : TokenRateLimiter :=
  if 60 ≤ now - s.window_start_time then
    { s with used_tokens := 0, window_start_time := now }
  else s

/-- Method `wait_for_tokens` (lines 37-52). Input `now` is the
`time.time()` read at entry; the result pairs the new limiter state with
the duration slept (0 when no sleep happened). The clock read after the
sleep (line 50) is modelled as `now` plus the slept duration. -/
def TokenRateLimiter.wait_for_tokens (s : TokenRateLimiter) (now tokens_needed : ℚ) :
    TokenRateLimiter × ℚ :=
  let s1 := s.lazyWindowReset now
  if s1.tokens_per_minute < s1.used_tokens + tokens_needed then
    let sleep_time := 60 - (now - s1.window_start_time)
    let slept := max 0 sleep_time
    let s2 := { s1 with used_tokens := 0, window_start_time := now + slept }
    ({ s2 with used_tokens := s2.used_tokens + tokens_needed }, slept)
  else
    ({ s1 with used_tokens := s1.used_tokens + tokens_needed }, 0)

/-- Run a sequence of `wait_for_tokens` calls; each list entry is the pair
of the clock value at entry and the tokens needed. -/
def runCalls (s : TokenRateLimiter) : List (ℚ × ℚ) → TokenRateLimiter
  | [] => s
  | c :: rest => runCalls (s.wait_for_tokens c.1 c.2).1 rest

/-- The capacity field is never written by `wait_for_tokens`. -/
theorem wait_for_tokens_capacity (s : TokenRateLimiter) (now tokens_needed : ℚ) :
    (s.wait_for_tokens now tokens_needed).1.tokens_per_minute = s.tokens_per_minute := by
  unfold TokenRateLimiter.wait_for_tokens TokenRateLimiter.lazyWindowReset
  dsimp only
  split <;> split <;> rfl

/-- One admitted call needing at most the capacity leaves at most the
capacity used, whatever the prior state. -/
theorem wait_for_tokens_step_bound (s : TokenRateLimiter) (now tokens_needed : ℚ)
    (h : tokens_needed ≤ s.tokens_per_minute) :
    (s.wait_for_tokens now tokens_needed).1.used_tokens ≤
      (s.wait_for_tokens now tokens_needed).1.tokens_per_minute := by
  unfold TokenRateLimiter.wait_for_tokens TokenRateLimiter.lazyWindowReset
  dsimp only
  split
  · split
    · simpa using h
    · dsimp only at *
      linarith [le_of_not_lt (by assumption)]
  · split
    · simpa using h
    · dsimp only at *
      linarith [le_of_not_lt (by assumption)]

/-- HTTP headers of a Bedrock response (`response_metadata['HTTPHeaders']`).
The three numeric headers are optional; a present header is modelled as its
already parsed integer value. The `date` header is optional text. -/
structure ResponseHeaders where
  invocation_latency : Option Int
  input_token_count : Option Int
  output_token_count : Option Int
  date : Option String
deriving DecidableEq

/-- Response metadata handed to `add_metric`: the four required keys of the
dictionary (`RequestId`, `HTTPStatusCode`, `HTTPHeaders`, `RetryAttempts`). -/
structure ResponseMetadata where
  request_id : String
  http_status_code : Int
  http_headers : ResponseHeaders
  retry_attempts : Int
deriving DecidableEq

/-- One recorded metric (the `BedrockMetric` dataclass, lines 54-62;
`timestamp` is `None` when the `date` header is absent). -/
structure BedrockMetric where
  request_id : String
  http_status : Int
  latency_ms : Int
  input_tokens : Int
  output_tokens : Int
  retry_attempts : Int
  timestamp : Option String
deriving DecidableEq

/-- Method `BedrockMetricsCollector.add_metric` (lines 79-91): extract one
metric from the response metadata, defaulting each absent numeric header to
0, and append it to the collection. -/
def add_metric (metrics : List BedrockMetric) (rm : ResponseMetadata) : List BedrockMetric :=
  metrics ++ [{ request_id := rm.request_id
                http_status := rm.http_status_code
                latency_ms := rm.http_headers.invocation_latency.getD 0
                input_tokens := rm.http_headers.input_token_count.getD 0
                output_tokens := rm.http_headers.output_token_count.getD 0
                retry_attempts := rm.retry_attempts
                timestamp := rm.http_headers.date }]

/-- Summary dictionary built by `get_summary` (lines 104-113); averages and
the success rate are exact rationals in place of Python float division. -/
structure Summary where
  total_api_calls : Nat
  average_latency_ms : ℚ
  total_input_tokens : Int
  total_output_tokens : Int
  average_input_tokens : ℚ
  average_output_tokens : ℚ
  total_retry_attempts : Int
  success_rate : ℚ
deriving DecidableEq

/-- Return value of `get_summary`: either the sentinel string
"No metrics collected" or the summary dictionary. -/
inductive SummaryResult
  | noMetrics
  | summary (s : Summary)
deriving DecidableEq

/-- Method `BedrockMetricsCollector.get_summary` (lines 93-115): the empty
case is the explicit first branch (`if not self.metrics`); every division
below it has the nonzero `total_calls` as divisor. -/
def get_summary (metrics : List BedrockMetric) : SummaryResult :=
  if metrics.isEmpty then .noMetrics
  else
    let total_calls : ℚ := metrics.length
    let total_latency : Int := (metrics.map (fun m => m.latency_ms)).sum
    let total_input_tokens : Int := (metrics.map (fun m => m.input_tokens)).sum
    let total_output_tokens : Int := (metrics.map (fun m => m.output_tokens)).sum
    let total_retries : Int := (metrics.map (fun m => m.retry_attempts)).sum
    .summary
      { total_api_calls := metrics.length
        average_latency_ms := (total_latency : ℚ) / total_calls
        total_input_tokens := total_input_tokens
        total_output_tokens := total_output_tokens
        average_input_tokens := (total_input_tokens : ℚ) / total_calls
        average_output_tokens := (total_output_tokens : ℚ) / total_calls
        total_retry_attempts := total_retries
        success_rate :=
          ((metrics.filter (fun m => m.http_status = 200)).length : ℚ) / total_calls * 100 }

/-- Python runtime errors that subscripting can raise. -/
inductive PyError
  | typeError
  | keyError
deriving DecidableEq

/-- Python subscript `summary[key]` on the value returned by `get_summary`:
subscripting the sentinel string with a string key raises `TypeError`
(string indices must be integers); on the dictionary it looks the key up.
All numeric values are returned as rationals. -/
def SummaryResult.subscript : SummaryResult → String → Except PyError ℚ
  | .noMetrics, _ => .error .typeError
  | .summary s, key =>
    if key = "total_api_calls" then .ok s.total_api_calls
    else if key = "average_latency_ms" then .ok s.average_latency_ms
    else if key = "total_input_tokens" then .ok s.total_input_tokens
    else if key = "total_output_tokens" then .ok s.total_output_tokens
    else if key = "average_input_tokens" then .ok s.average_input_tokens
    else if key = "average_output_tokens" then .ok s.average_output_tokens
    else if key = "total_retry_attempts" then .ok s.total_retry_attempts
    else if key = "success_rate" then .ok s.success_rate
    else .error .keyError

/-- Rendered report text, abstracting the fixed HTML boilerplate and the
two-decimal float formatting of the f-string: the interpolated summary
values and the per-call latency and request-id series, in the order the
source interpolates them. -/
def htmlReport (tac sr tra al tit tot ait aot : ℚ)
    (latencies : List Int) (requestIds : List String) : String :=
  "<html><h1>Bedrock API Metrics Summary</h1>" ++
    "<p>Total API Calls: " ++ toString tac ++ "</p>" ++
    "<p>Success Rate: " ++ toString sr ++ "</p>" ++
    "<p>Total Retry Attempts: " ++ toString tra ++ "</p>" ++
    "<p>Average Latency: " ++ toString al ++ "</p>" ++
    "<p>Total Input Tokens: " ++ toString tit ++ "</p>" ++
    "<p>Total Output Tokens: " ++ toString tot ++ "</p>" ++
    "<p>Average Input Tokens: " ++ toString ait ++ "</p>" ++
    "<p>Average Output Tokens: " ++ toString aot ++ "</p>" ++
    "<p>latencies: " ++ toString latencies ++ "</p>" ++
    "<p>requestIds: " ++ toString requestIds ++ "</p></html>"

/-- Method `generate_html_report` (lines 125-206): build the f-string from
the value `get_summary` returned, subscripting it once per interpolated
summary field in source order; returns the text written to the file, or the
Python error the formatting raised. -/
def generate_html_report (metrics : List BedrockMetric) : Except PyError String := do
  let summary := get_summary metrics
  let tac ← summary.subscript "total_api_calls"
  let sr ← summary.subscript "success_rate"
  let tra ← summary.subscript "total_retry_attempts"
  let al ← summary.subscript "average_latency_ms"
  let tit ← summary.subscript "total_input_tokens"
  let tot ← summary.subscript "total_output_tokens"
  let ait ← summary.subscript "average_input_tokens"
  let aot ← summary.subscript "average_output_tokens"
  pure (htmlReport tac sr tra al tit tot ait aot
    (metrics.map (fun m => m.latency_ms)) (metrics.map (fun m => m.request_id)))

/-- Error raised by the underlying model call (`botocore.ClientError`),
carrying the classification code read at line 244. -/
structure BedrockError where
  code : String
deriving DecidableEq

/-- How one run of `invoke_bedrock_with_retries` ends: return a response,
let an error propagate, or fall off the loop returning `None` (which
happens exactly when the loop body never runs). -/
inductive RunResult (α : Type)
  | success (resp : α)
  | raised (e : BedrockError)
  | returnedNone
deriving DecidableEq

/-- Observable trace of one run: how many times `invoke_model` was called,
how many times the rate limiter was consulted, the backoff sleeps
performed, and the final outcome. -/
structure InvokeTrace (α : Type) where
  attempts : Nat
  limiterWaits : Nat
  sleeps : List ℚ
  result : RunResult α
deriving DecidableEq

/-- Token estimate for a request serialized to `r` (line 230):
`len(str(request)) / 4`. -/
def estimated_tokens (r : String) : ℚ :=
  (r.length : ℚ) / 4

/-- Loop body of `invoke_bedrock_with_retries` (lines 232-253), recursing
on the number of remaining iterations, with `a` the current value of
`attempt` (so the last iteration, where Python tests
`attempt == max_retries - 1`, is the one entered with one remaining).
The underlying call is a function of the attempt index; `useLimiter`
records whether a rate limiter was supplied; `jitter a` stands for the
`random.random() * 0.1` summand of the backoff delay. -/
def invokeLoop (call : Nat → Except BedrockError α) (jitter : Nat → ℚ)
    (useLimiter : Bool) : Nat → Nat → InvokeTrace α
  | 0, _ => ⟨0, 0, [], .returnedNone⟩
  | remaining + 1, a =>
    let lw := if useLimiter then 1 else 0
    match call a with
    | .ok r => ⟨1, lw, [], .success r⟩
    | .error e =>
      if e.code = "ThrottlingException" then
        match remaining with
        | 0 => ⟨1, lw, [], .raised e⟩
        | rem + 1 =>
          let t := invokeLoop call jitter useLimiter (rem + 1) (a + 1)
          ⟨1 + t.attempts, lw + t.limiterWaits,
            ((1 : ℚ) * 2 ^ a + jitter a) :: t.sleeps, t.result⟩
      else ⟨1, lw, [], .raised e⟩

/-- Function `invoke_bedrock_with_retries` (lines 225-253): run the loop
from `attempt = 0` with `max_retries` iterations allowed. -/
def invoke_bedrock_with_retries (call : Nat → Except BedrockError α) (jitter : Nat → ℚ)
    (useLimiter : Bool) (max_retries : Nat) : InvokeTrace α :=
  invokeLoop call jitter useLimiter max_retries 0

/-- The throttling error the Bedrock service raises when rate limited. -/
def throttleErr : BedrockError := ⟨"ThrottlingException"⟩

/-- An underlying call that throttles on the first attempt and succeeds on
every later one. -/
def throttleOnceCall (resp : String) : Nat → Except BedrockError String :=
  fun n => if n = 0 then .error throttleErr else .ok resp

/-- When every attempt throttles, the loop entered at `attempt = a` with
`remaining + 1` iterations left makes exactly `remaining + 1` calls and
ends by re-raising the error of its last attempt, `a + remaining`. -/
theorem invokeLoop_all_throttled (call : Nat → Except BedrockError α)
    (errs : Nat → BedrockError) (jitter : Nat → ℚ) (useLimiter : Bool)
    (hcall : ∀ n, call n = .error (errs n))
    (hthr : ∀ n, (errs n).code = "ThrottlingException") :
    ∀ remaining a, (invokeLoop call jitter useLimiter (remaining + 1) a).result =
        .raised (errs (a + remaining)) ∧
      (invokeLoop call jitter useLimiter (remaining + 1) a).attempts = remaining + 1 := by
  intro remaining
  induction remaining with
  | zero =>
    intro a
    unfold invokeLoop
    rw [hcall a]
    simp [hthr a]
  | succ rem ih =>
    intro a
    unfold invokeLoop
    rw [hcall a]
    simp only [hthr a, if_pos rfl]
    have h := ih (a + 1)
    constructor
    · simpa [Nat.add_assoc, Nat.add_comm 1 rem] using h.1
    · simp [h.2, Nat.add_comm]

/-- C1: whenever, after the lazy 60-second window-reset check, adding
`tokens_needed` would exceed the capacity, `wait_for_tokens` sleeps
`max 0 (60 - (now - window_start))`, unconditionally resets the window to
the post-sleep time with `used_tokens` cleared, and then adds
`tokens_needed`, so the admitted call ends with `used_tokens =
tokens_needed` without re-validation; and with capacity 100, calls of 50
then 60 tokens at the same instant make the first call sleep 0 and force
the second call to wait no less than the remaining window time. -/
theorem wait_for_tokens_over_budget_hard_reset :
    (∀ (s : TokenRateLimiter) (now needed : ℚ),
      (s.lazyWindowReset now).tokens_per_minute <
          (s.lazyWindowReset now).used_tokens + needed →
        (s.wait_for_tokens now needed).2 =
            max 0 (60 - (now - (s.lazyWindowReset now).window_start_time)) ∧
          (s.wait_for_tokens now needed).1.used_tokens = needed ∧
          (s.wait_for_tokens now needed).1.window_start_time =
            now + (s.wait_for_tokens now needed).2) ∧
    (∀ (s : TokenRateLimiter) (now needed : ℚ),
      ¬ ((s.lazyWindowReset now).tokens_per_minute <
          (s.lazyWindowReset now).used_tokens + needed) →
        (s.wait_for_tokens now needed).1.used_tokens =
            (s.lazyWindowReset now).used_tokens + needed ∧
          (s.wait_for_tokens now needed).2 = 0) ∧
    (((TokenRateLimiter.init 100 0).wait_for_tokens 0 50).2 = 0 ∧
      60 - (0 - ((TokenRateLimiter.init 100 0).wait_for_tokens 0 50).1.window_start_time) ≤
        ((((TokenRateLimiter.init 100 0).wait_for_tokens 0 50).1).wait_for_tokens 0 60).2) := by
  refine ⟨?_, ?_, ?_, ?_⟩
  · intro s now needed h
    simp only [TokenRateLimiter.wait_for_tokens]
    rw [if_pos h]
    exact ⟨rfl, zero_add needed, rfl⟩
  · intro s now needed h
    simp only [TokenRateLimiter.wait_for_tokens]
    rw [if_neg h]
    exact ⟨rfl, rfl⟩
  · norm_num [TokenRateLimiter.wait_for_tokens, TokenRateLimiter.lazyWindowReset,
      TokenRateLimiter.init]
  · norm_num [TokenRateLimiter.wait_for_tokens, TokenRateLimiter.lazyWindowReset,
      TokenRateLimiter.init]

/-- Witness for C1: a limiter with capacity 100 and 50 tokens already used
in a fresh window, asked for 60 more at time 0 (over budget), and one with
20 used asked for 30 (within budget). -/
theorem wait_for_tokens_over_budget_hard_reset_witness :
    (((⟨100, 5/3, 0, 50, 0⟩ : TokenRateLimiter).wait_for_tokens 0 60).2 =
        max 0 (60 - (0 - ((⟨100, 5/3, 0, 50, 0⟩ : TokenRateLimiter).lazyWindowReset
          0).window_start_time)) ∧
      ((⟨100, 5/3, 0, 50, 0⟩ : TokenRateLimiter).wait_for_tokens 0 60).1.used_tokens = 60 ∧
      ((⟨100, 5/3, 0, 50, 0⟩ : TokenRateLimiter).wait_for_tokens 0 60).1.window_start_time =
        0 + ((⟨100, 5/3, 0, 50, 0⟩ : TokenRateLimiter).wait_for_tokens 0 60).2) ∧
    (((⟨100, 5/3, 0, 20, 0⟩ : TokenRateLimiter).wait_for_tokens 0 30).1.used_tokens =
        ((⟨100, 5/3, 0, 20, 0⟩ : TokenRateLimiter).lazyWindowReset 0).used_tokens + 30 ∧
      ((⟨100, 5/3, 0, 20, 0⟩ : TokenRateLimiter).wait_for_tokens 0 30).2 = 0) :=
  ⟨wait_for_tokens_over_budget_hard_reset.1 ⟨100, 5/3, 0, 50, 0⟩ 0 60
      (by norm_num [TokenRateLimiter.lazyWindowReset]),
    wait_for_tokens_over_budget_hard_reset.2.1 ⟨100, 5/3, 0, 20, 0⟩ 0 30
      (by norm_num [TokenRateLimiter.lazyWindowReset])⟩

/-- C2 counterexample: a limiter with positive capacity 100 admits a single
call needing 150 tokens and ends with `used_tokens = 150 > 100`, so the
claimed invariant `used_tokens <= tokens_per_minute` at admission fails. -/
theorem rate_limiter_admits_over_capacity :
    (0 : ℚ) < (TokenRateLimiter.init 100 0).tokens_per_minute ∧
      ((TokenRateLimiter.init 100 0).wait_for_tokens 0 150).1.tokens_per_minute <
        ((TokenRateLimiter.init 100 0).wait_for_tokens 0 150).1.used_tokens := by
  constructor
  · norm_num [TokenRateLimiter.init]
  · norm_num [TokenRateLimiter.wait_for_tokens, TokenRateLimiter.lazyWindowReset,
      TokenRateLimiter.init]

/-- C2 amended: along any sequence of admitted calls each needing at most
the capacity, starting from a state within budget, `used_tokens <=
tokens_per_minute` holds whenever a call returns (blocking, never
rejecting, is built in: `wait_for_tokens` always returns a state). -/
theorem rate_limiter_invariant_bounded_calls (s : TokenRateLimiter) (calls : List (ℚ × ℚ))
    (h0 : s.used_tokens ≤ s.tokens_per_minute)
    (hc : ∀ c ∈ calls, c.2 ≤ s.tokens_per_minute) :
    (runCalls s calls).used_tokens ≤ (runCalls s calls).tokens_per_minute := by
  induction calls generalizing s with
  | nil => exact h0
  | cons c rest ih =>
    simp only [runCalls]
    refine ih _ (wait_for_tokens_step_bound s c.1 c.2 (hc c (by simp))) ?_
    intro d hd
    rw [wait_for_tokens_capacity]
    exact hc d (by simp [hd])

/-- Witness for C2 amended: capacity 100, calls of 50 then 60 tokens. -/
theorem rate_limiter_invariant_bounded_calls_witness :
    (runCalls (TokenRateLimiter.init 100 0) [(0, 50), (0, 60)]).used_tokens ≤
      (runCalls (TokenRateLimiter.init 100 0) [(0, 50), (0, 60)]).tokens_per_minute :=
  rate_limiter_invariant_bounded_calls (TokenRateLimiter.init 100 0) [(0, 50), (0, 60)]
    (by norm_num [TokenRateLimiter.init]) (by norm_num [TokenRateLimiter.init])

/-- A non-throttling classification of an underlying failure. -/
def accessDeniedErr : BedrockError := ⟨"AccessDeniedException"⟩

/-- C3: when every attempt of the underlying call fails with a
throttling-classified error, a run with `max_retries = N >= 1` makes
exactly N attempts and ends by re-raising the error of the last attempt
(index N - 1) unchanged; it never raises earlier. -/
theorem invoke_retry_exhaustion {α : Type} (call : Nat → Except BedrockError α)
    (errs : Nat → BedrockError) (jitter : Nat → ℚ) (useLimiter : Bool) (N : Nat)
    (hN : 1 ≤ N)
    (hcall : ∀ n, call n = .error (errs n))
    (hthr : ∀ n, (errs n).code = "ThrottlingException") :
    (invoke_bedrock_with_retries call jitter useLimiter N).result = .raised (errs (N - 1)) ∧
      (invoke_bedrock_with_retries call jitter useLimiter N).attempts = N := by
  obtain ⟨rem, rfl⟩ : ∃ rem, N = rem + 1 := ⟨N - 1, (Nat.succ_pred_eq_of_pos hN).symm⟩
  have h := invokeLoop_all_throttled call errs jitter useLimiter hcall hthr rem 0
  simpa [invoke_bedrock_with_retries] using h

/-- Witness for C3: three attempts against a call that always throttles. -/
theorem invoke_retry_exhaustion_witness :
    (invoke_bedrock_with_retries (fun _ => (.error throttleErr : Except BedrockError String))
        (fun _ => 0) true 3).result = .raised throttleErr ∧
      (invoke_bedrock_with_retries (fun _ => (.error throttleErr : Except BedrockError String))
        (fun _ => 0) true 3).attempts = 3 :=
  invoke_retry_exhaustion (fun _ => .error throttleErr) (fun _ => throttleErr)
    (fun _ => 0) true 3 (by decide) (fun _ => rfl) (fun _ => rfl)

/-- C4: whenever the attempt the loop is on succeeds, the run returns that
response at once with no further attempt (one `invoke_model` call in this
iteration, no backoff sleep); in particular, with `max_retries = 2` and an
underlying call that throttles once then succeeds, the run ends in the
success response after exactly 2 attempts. -/
theorem invoke_success_returns_immediately :
    (∀ (α : Type) (call : Nat → Except BedrockError α) (jitter : Nat → ℚ)
      (useLimiter : Bool) (rem a : Nat) (r : α), call a = .ok r →
        invokeLoop call jitter useLimiter (rem + 1) a =
          ⟨1, if useLimiter then 1 else 0, [], .success r⟩) ∧
    ((invoke_bedrock_with_retries (throttleOnceCall "resp") (fun _ => 0) true 2).result =
        .success "resp" ∧
      (invoke_bedrock_with_retries (throttleOnceCall "resp") (fun _ => 0) true 2).attempts = 2) := by
  refine ⟨?_, ?_, ?_⟩
  · intro α call jitter useLimiter rem a r h
    unfold invokeLoop
    rw [h]
  · rfl
  · rfl

/-- Witness for C4: a call that succeeds at attempt index 5 with 1
iteration remaining returns at once. -/
theorem invoke_success_returns_immediately_witness :
    invokeLoop (fun _ => (.ok "resp" : Except BedrockError String)) (fun _ => 0) false
      (0 + 1) 5 = ⟨1, if false then 1 else 0, [], .success "resp"⟩ :=
  invoke_success_returns_immediately.1 String (fun _ => .ok "resp") (fun _ => 0) false 0 5
    "resp" rfl

/-- C5: a failure of the underlying call whose classification is not
throttling is re-raised unchanged by the iteration that saw it, with no
backoff and no further attempt; in particular, a non-throttling failure on
the first attempt of a `max_retries = 5` run propagates with exactly 1
attempt made. -/
theorem invoke_nonthrottling_propagates_immediately :
    (∀ (α : Type) (call : Nat → Except BedrockError α) (jitter : Nat → ℚ)
      (useLimiter : Bool) (rem a : Nat) (e : BedrockError), call a = .error e →
        e.code ≠ "ThrottlingException" →
        invokeLoop call jitter useLimiter (rem + 1) a =
          ⟨1, if useLimiter then 1 else 0, [], .raised e⟩) ∧
    ((invoke_bedrock_with_retries
          (fun _ => (.error accessDeniedErr : Except BedrockError String))
          (fun _ => 0) true 5).result = .raised accessDeniedErr ∧
      (invoke_bedrock_with_retries
          (fun _ => (.error accessDeniedErr : Except BedrockError String))
          (fun _ => 0) true 5).attempts = 1) := by
  refine ⟨?_, ?_, ?_⟩
  · intro α call jitter useLimiter rem a e h hcode
    unfold invokeLoop
    rw [h]
    simp [hcode]
  · rfl
  · rfl

/-- Witness for C5: an access-denied failure seen at attempt index 0 with 4
iterations remaining is re-raised at once. -/
theorem invoke_nonthrottling_propagates_immediately_witness :
    invokeLoop (fun _ => (.error accessDeniedErr : Except BedrockError String)) (fun _ => 0)
      false (3 + 1) 0 = ⟨1, if false then 1 else 0, [], .raised accessDeniedErr⟩ :=
  invoke_nonthrottling_propagates_immediately.1 String (fun _ => .error accessDeniedErr)
    (fun _ => 0) false 3 0 accessDeniedErr rfl (by decide)

/-- C10: with `max_retries = 0` the loop body never runs: no rate-limiter
consultation, no model invocation, no sleep, no error, and the function
falls off the loop returning `None`. -/
theorem invoke_zero_retries_returns_none (α : Type) (call : Nat → Except BedrockError α)
    (jitter : Nat → ℚ) (useLimiter : Bool) :
    invoke_bedrock_with_retries call jitter useLimiter 0 = ⟨0, 0, [], .returnedNone⟩ :=
  rfl

/-- Response metadata whose optional numeric headers are all absent. -/
def bareMetadata : ResponseMetadata := ⟨"req-1", 200, ⟨none, none, none, none⟩, 1⟩

/-- C6: `add_metric` always completes, appending exactly one metric to the
collection, and when the optional numeric headers are absent the appended
metric carries 0 for each of them (and `None` for the timestamp). -/
theorem add_metric_appends_with_defaults (metrics : List BedrockMetric)
    (rm : ResponseMetadata) :
    (add_metric metrics rm).length = metrics.length + 1 ∧
      (rm.http_headers = ⟨none, none, none, none⟩ →
        add_metric metrics rm = metrics ++
          [⟨rm.request_id, rm.http_status_code, 0, 0, 0, rm.retry_attempts, none⟩]) := by
  constructor
  · simp [add_metric]
  · intro h
    simp [add_metric, h]

/-- Witness for C6: metadata with every optional header absent yields one
metric with the numeric fields defaulted to 0. -/
theorem add_metric_appends_with_defaults_witness :
    (add_metric [] bareMetadata).length = ([] : List BedrockMetric).length + 1 ∧
      add_metric [] bareMetadata =
        ([] : List BedrockMetric) ++ [⟨"req-1", 200, 0, 0, 0, 1, none⟩] :=
  ⟨(add_metric_appends_with_defaults [] bareMetadata).1,
    (add_metric_appends_with_defaults [] bareMetadata).2 rfl⟩

/-- C8: with exactly one recorded metric of latency 100 ms, 50 input
tokens, 75 output tokens and status 200, the summary has
`total_api_calls = 1`, `average_latency_ms = 100` and
`success_rate = 100` (and the remaining fields as computed). -/
theorem get_summary_single_metric :
    get_summary [⟨"req-1", 200, 100, 50, 75, 1, some "2024-01-01"⟩] =
      .summary ⟨1, 100, 50, 75, 50, 75, 1, 100⟩ := by
  norm_num [get_summary]

/-- C9: with zero recorded metrics, `get_summary` returns the explicit
sentinel through the dedicated empty branch; no average or rate is ever
computed on that path, so no division by zero can be raised. -/
theorem get_summary_empty_sentinel : get_summary [] = .noMetrics := rfl

/-- C7 (divergence witness): on an empty collector `get_summary` hands the
report the string sentinel, and the first f-string subscript
`summary[total_api_calls]` raises `TypeError`, so `generate_html_report`
fails instead of writing the report file. -/
theorem generate_html_report_empty_raises :
    generate_html_report [] = .error .typeError := rfl
